import Mathlib

/-!
Verification of the view-synchronization core of a vector-renderer base class
(`src/src/layer/vector/Renderer.js`).

The renderer tracks the host map's view (center, zoom, padded pixel bounds),
recomputes an affine surface transform on view changes, and dispatches
`_reset` / `_project` / `_update` callbacks to the member shapes registered in
its `_layers` registry.

Modelling choices:
- Pixel coordinates are rationals (`ℚ`); JavaScript `Math.round` is
  `jsRound q = ⌊q + 1/2⌋` (round half towards positive infinity), which agrees
  with `Math.round` on all finite inputs.
- The host map is a structure of abstract functions (`MapState`), exactly the
  interface the renderer consumes: size, center, zoom, `getZoomScale`,
  `project`, `containerPointToLayerPoint`, `_getNewPixelOrigin`.
- Each renderer operation is a pure function from the renderer state to a new
  state together with a trace of observable effects (`Eff`): the DOM transform
  application, the bounds recomputation, and the per-shape callbacks. The
  member-shape registry `_layers` is modelled as the list of registered ids
  (object keys are unique, hence `Nodup` hypotheses where per-id counting
  matters).
-/

/-- JavaScript `Math.round`: round half away towards positive infinity. -/
def jsRound (q : ℚ) : ℤ := ⌊q + 1/2⌋

/-- Pixel point, as in `geometry/Point.js`. -/
structure Point where
  x : ℚ
  y : ℚ
deriving DecidableEq, Repr

/-- Point addition (`Point.add`). -/
def Point.add (p q : Point) : Point := ⟨p.x + q.x, p.y + q.y⟩

/-- Point subtraction (`Point.subtract`). -/
def Point.subtract (p q : Point) : Point := ⟨p.x - q.x, p.y - q.y⟩

/-- Scalar multiplication (`Point.multiplyBy`). -/
def Point.multiplyBy (p : Point) (k : ℚ) : Point := ⟨p.x * k, p.y * k⟩

/-- Componentwise rounding (`Point.round`), JavaScript `Math.round` semantics. -/
def Point.round (p : Point) : Point := ⟨(jsRound p.x : ℚ), (jsRound p.y : ℚ)⟩

/-- Geographic coordinate. -/
structure LatLng where
  lat : ℚ
  lng : ℚ
deriving DecidableEq, Repr

/-- Axis-aligned pixel rectangle, as in `geometry/Bounds.js`. -/
structure Bounds where
  min : Point
  max : Point
deriving DecidableEq, Repr

/-- Constructor semantics of `new Bounds(a, b)`: the constructor extends an
empty bounds with both corners, so it takes the componentwise min and max. -/
def Bounds.ofCorners (a b : Point) : Bounds :=
  ⟨⟨Min.min a.x b.x, Min.min a.y b.y⟩, ⟨Max.max a.x b.x, Max.max a.y b.y⟩⟩

/-- The host map viewport as consumed by the renderer: current size, center and
zoom, plus the projection functions the renderer calls. The map is an external
collaborator; its functions are abstract fields here. `getNewPixelOrigin`
embeds the interface of the map's `_getNewPixelOrigin`. -/
structure MapState where
  size : Point
  center : LatLng
  zoom : ℚ
  getZoomScale : ℚ → ℚ → ℚ
  project : LatLng → ℚ → Point
  containerPointToLayerPoint : Point → Point
  getNewPixelOrigin : LatLng → ℚ → Point

/-- The renderer's own mutable state: the `padding` option, the cached
`_bounds` / `_center` / `_zoom` snapshot, and the `_layers` registry of
member-shape ids. `_center` and `_zoom` are undefined in JavaScript until the
first `_update`; they are plain fields here and no theorem depends on their
pre-update values. -/
structure RendererState where
  padding : ℚ
  bounds : Option Bounds
  center : LatLng
  zoom : ℚ
  layers : List ℕ
deriving DecidableEq, Repr

/-- Observable effects of a renderer operation, in execution order:
`setBounds` records the `_bounds` recomputation of `_update`, `setTransform`
records `DomUtil.setTransform(container, offset, scale)`, the three call
effects record the member-shape callbacks, `subscribeUpdate` records
`this.on('update', this._updatePaths)`, and `domSetup` stands for the DOM
container manipulation of `onAdd` (opaque: it touches no tracked state). -/
inductive Eff where
  | setBounds (b : Bounds)
  | setTransform (offset : Point) (scale : ℚ)
  | projectCall (id : ℕ)
  | updateCall (id : ℕ)
  | resetCall (id : ℕ)
  | subscribeUpdate
  | domSetup
deriving DecidableEq, Repr

/-- True exactly on member-shape callbacks. -/
def Eff.isShapeCall : Eff → Bool
  | .projectCall _ => true
  | .updateCall _ => true
  | .resetCall _ => true
  | _ => false

/-- True exactly on `projectCall`. -/
def Eff.isProjectCall : Eff → Bool
  | .projectCall _ => true
  | _ => false

/-- True exactly on `updateCall`. -/
def Eff.isUpdateCall : Eff → Bool
  | .updateCall _ => true
  | _ => false

/-- True exactly on `resetCall`. -/
def Eff.isResetCall : Eff → Bool
  | .resetCall _ => true
  | _ => false

/-- True exactly on `setBounds`. -/
def Eff.isSetBounds : Eff → Bool
  | .setBounds _ => true
  | _ => false

/-- True exactly on `setTransform`. -/
def Eff.isSetTransform : Eff → Bool
  | .setTransform _ _ => true
  | _ => false

/-- Embeds the computation inside `_updateTransform` (Renderer.js lines
84–93): the scale and the top-left offset of the surface transform.
`scale = map.getZoomScale(zoom, this._zoom)`;
`viewHalf = map.getSize() * (0.5 + padding)`;
`currentCenterPoint = map.project(this._center, zoom)`;
`topLeftOffset = viewHalf * (-scale) + currentCenterPoint
  - map._getNewPixelOrigin(center, zoom)`. -/
def Renderer.computeTransform (m : MapState) (s : RendererState)
    (center : LatLng) (zoom : ℚ) : Point × ℚ :=
  let scale := m.getZoomScale zoom s.zoom
  let viewHalf := m.size.multiplyBy (1/2 + s.padding)
  let currentCenterPoint := m.project s.center zoom
  let topLeftOffset :=
    ((viewHalf.multiplyBy (-scale)).add currentCenterPoint).subtract
      (m.getNewPixelOrigin center zoom)
  (topLeftOffset, scale)

/-- Embeds `_updateTransform` (84–93): it applies the computed transform to
the container and changes no renderer state. -/
def Renderer.updateTransform (m : MapState) (s : RendererState)
    (center : LatLng) (zoom : ℚ) : List Eff :=
  [Eff.setTransform (Renderer.computeTransform m s center zoom).1
    (Renderer.computeTransform m s center zoom).2]

/-- Embeds the bounds value computed by `_update` (116–127):
`min = map.containerPointToLayerPoint(size * (-p)).round()`;
`bounds = new Bounds(min, min.add(size * (1 + p * 2)).round())`. -/
def Renderer.updateBounds (m : MapState) (p : ℚ) : Bounds :=
  let size := m.size
  let mn := (m.containerPointToLayerPoint (size.multiplyBy (-p))).round
  Bounds.ofCorners mn ((mn.add (size.multiplyBy (1 + p * 2))).round)

/-- Embeds `_update` (116–127): recompute `_bounds` and refresh the cached
`_center` and `_zoom` from the map. The base class fires no event here
(subclasses are responsible for firing `update`). -/
def Renderer.update (m : MapState) (s : RendererState) :
    RendererState × List Eff :=
  let b := Renderer.updateBounds m s.padding
  ({ s with bounds := some b, center := m.center, zoom := m.zoom },
    [Eff.setBounds b])

/-- Embeds `_reset` (95–102): `_update()`, then
`_updateTransform(this._center, this._zoom)` (reading the freshly cached
snapshot), then `_reset()` on every registered member shape. -/
def Renderer.reset (m : MapState) (s : RendererState) :
    RendererState × List Eff :=
  let s1 := (Renderer.update m s).1
  (s1, (Renderer.update m s).2
    ++ Renderer.updateTransform m s1 s1.center s1.zoom
    ++ s1.layers.map Eff.resetCall)

/-- Embeds `_onZoomEnd` (104–108): `_project()` on every registered member
shape, nothing else. -/
def Renderer.onZoomEnd (s : RendererState) : RendererState × List Eff :=
  (s, s.layers.map Eff.projectCall)

/-- Embeds `_updatePaths` (110–114): `_update()` on every registered member
shape, nothing else. -/
def Renderer.updatePaths (s : RendererState) : RendererState × List Eff :=
  (s, s.layers.map Eff.updateCall)

/-- Embeds `_onAnimZoom` (76–78): apply the transform for the animation
frame's interpolated center and zoom. -/
def Renderer.onAnimZoom (m : MapState) (s : RendererState)
    (center : LatLng) (zoom : ℚ) : RendererState × List Eff :=
  (s, Renderer.updateTransform m s center zoom)

/-- Embeds `_onZoom` (80–82): apply the transform at the map's current center
and zoom. -/
def Renderer.onZoom (m : MapState) (s : RendererState) :
    RendererState × List Eff :=
  (s, Renderer.updateTransform m s m.center m.zoom)

/-- Embeds `onAdd` (45–56): DOM container setup (opaque `domSetup` effect),
then `this._update()`, then `this.on('update', this._updatePaths, this)`. -/
def Renderer.onAdd (m : MapState) (s : RendererState) :
    RendererState × List Eff :=
  ((Renderer.update m s).1,
    Eff.domSetup :: (Renderer.update m s).2 ++ [Eff.subscribeUpdate])

/-- Map events the renderer subscribes to in `getEvents` (63–74). `zoomanim`
carries the frame's interpolated center and zoom. -/
inductive MapEvent where
  | viewreset
  | zoom
  | moveend
  | zoomend
  | zoomanim (center : LatLng) (zoom : ℚ)

/-- Embeds the handler table of `getEvents` (63–74): `viewreset ↦ _reset`,
`zoom ↦ _onZoom`, `moveend ↦ _update`, `zoomend ↦ _onZoomEnd`, and, only when
the map is zoom-animated, `zoomanim ↦ _onAnimZoom` (otherwise no handler). -/
def Renderer.handleEvent (m : MapState) (zoomAnimated : Bool)
    (s : RendererState) : MapEvent → Option (RendererState × List Eff)
  | .viewreset => some (Renderer.reset m s)
  | .zoom => some (Renderer.onZoom m s)
  | .moveend => some (Renderer.update m s)
  | .zoomend => some (Renderer.onZoomEnd s)
  | .zoomanim c z =>
    if zoomAnimated then some (Renderer.onAnimZoom m s c z) else none

/-- Modelled from the spec: the option-merging step `Util.setOptions` of
`initialize` lives in `core/Util.js`, which is not under `src/`; the spec
describes the configuration surface as a single numeric `padding` option,
default `0.1`, validated only by being a non-negative number. A supplied
padding is accepted exactly when it is non-negative; when none is supplied
the default `0.1` applies. -/
def Renderer.setOptionsPadding (supplied : Option ℚ) : Option ℚ :=
  match supplied with
  | none => some (1/10)
  | some p => if 0 ≤ p then some p else none

/-- Embeds `initialize` (39–43) on top of the spec-modelled option step:
store the accepted padding and keep a pre-existing `_layers` registry
(`this._layers = this._layers || {}`), otherwise start with an empty one.
In JavaScript `_center`, `_zoom` and `_bounds` are undefined until the first
`_update`; they get placeholder values here and no theorem reads them before
an update. -/
def Renderer.initState (supplied : Option ℚ) (prevLayers : Option (List ℕ)) :
    Option RendererState :=
  (Renderer.setOptionsPadding supplied).map fun p =>
    { padding := p, bounds := none, center := ⟨0, 0⟩, zoom := 0,
      layers := prevLayers.getD [] }

/-- Sample viewport used for witnesses and counterexamples: an 800×600 map at
zoom 5 centered on (0,0), with the standard doubling zoom-scale law
(`getZoomScale(a,b) = 2^(a-b)` on integer zooms, so `getZoomScale(z,z) = 1`),
a linear projection, an identity container-to-layer conversion (map pane at
the origin), and the standard pixel-origin law
`round(project(center, zoom) - size/2 + panePos)` with `panePos = 0`. -/
def sampleMap : MapState where
  size := ⟨800, 600⟩
  center := ⟨0, 0⟩
  zoom := 5
  getZoomScale := fun a b => (2 : ℚ) ^ (a.num - b.num)
  project := fun c z => ⟨c.lng * (2 : ℚ) ^ z.num, c.lat * (2 : ℚ) ^ z.num⟩
  containerPointToLayerPoint := fun q => q
  getNewPixelOrigin := fun c z =>
    (Point.subtract ⟨c.lng * (2 : ℚ) ^ z.num, c.lat * (2 : ℚ) ^ z.num⟩
      ⟨400, 300⟩).round

/-- Sample renderer state: default padding, cached snapshot matching
`sampleMap`, one registered member shape with id 7. -/
def sampleState : RendererState where
  padding := 1/10
  bounds := none
  center := ⟨0, 0⟩
  zoom := 5
  layers := [7]

/-- C1: the incremental transform computed by `_updateTransform` for a
center/zoom pair is exactly: `scale = getZoomScale(targetZoom, cachedZoom)`;
`viewHalfExtent = size * (0.5 + padding)`;
`currentCenterPixel = project(cachedCenter, targetZoom)`;
`offset = viewHalfExtent * (-scale) + currentCenterPixel
  - newPixelOrigin(targetCenter, targetZoom)`; and the applied transform is
the translation by that offset with uniform scale `scale`. -/
theorem updateTransform_formula (m : MapState) (s : RendererState)
    (c : LatLng) (z : ℚ) :
    Renderer.updateTransform m s c z =
      [Eff.setTransform
        ((((m.size.multiplyBy (1/2 + s.padding)).multiplyBy
            (-(m.getZoomScale z s.zoom))).add
          (m.project s.center z)).subtract (m.getNewPixelOrigin c z))
        (m.getZoomScale z s.zoom)] := rfl

/-- Equality of points is componentwise equality. -/
theorem Point.eq_iff (p q : Point) : p = q ↔ p.x = q.x ∧ p.y = q.y := by
  cases p
  cases q
  simp

/-- Rounding an integer plus a rational adds the integer to the rounding. -/
theorem jsRound_int_add (n : ℤ) (q : ℚ) :
    jsRound ((n : ℚ) + q) = n + jsRound q := by
  unfold jsRound
  rw [add_assoc, Int.floor_int_add]

/-- Rounding moves a rational by at most one half. -/
theorem abs_jsRound_sub (q : ℚ) : |(jsRound q : ℚ) - q| ≤ 1/2 := by
  unfold jsRound
  have h1 : ((⌊q + 1/2⌋ : ℤ) : ℚ) ≤ q + 1/2 := Int.floor_le _
  have h2 : (q + 1/2) - 1 < ((⌊q + 1/2⌋ : ℤ) : ℚ) := Int.sub_one_lt_floor _
  rw [abs_le]
  constructor <;> linarith

/-- Rounding a non-negative rational is non-negative. -/
theorem jsRound_nonneg (q : ℚ) (h : 0 ≤ q) : 0 ≤ jsRound q := by
  unfold jsRound
  exact Int.le_floor.mpr (by push_cast; linarith)

/-- Componentwise normal form of the `new Bounds` corner normalization in
`updateBounds`: when the extension `t` is non-negative, the min component is
the rounded corner and the max component is that corner plus the rounded
extension. -/
theorem bounds_component (a t : ℚ) (ht : 0 ≤ t) :
    Min.min ((jsRound a : ℤ) : ℚ)
        ((jsRound ((jsRound a : ℚ) + t) : ℤ) : ℚ) = (jsRound a : ℚ) ∧
    Max.max ((jsRound a : ℤ) : ℚ)
        ((jsRound ((jsRound a : ℚ) + t) : ℤ) : ℚ) =
      (jsRound a : ℚ) + (jsRound t : ℚ) := by
  have h1 : jsRound ((jsRound a : ℚ) + t) = jsRound a + jsRound t :=
    jsRound_int_add _ _
  have h2 : (0 : ℚ) ≤ (jsRound t : ℚ) := by exact_mod_cast jsRound_nonneg t ht
  rw [h1]
  push_cast
  exact ⟨min_eq_left (by linarith), max_eq_right (by linarith)⟩

/-- C2: for every viewport size and padding `p ≥ 0` (with the viewport's
container-to-layer conversion a translation, as the map pane position makes
it), `_update` produces a PixelBounds whose min corner is
`containerPointToLayerPoint(size * -p)` rounded, whose width and height are
exactly `round(size * (1 + 2p))` (hence within one pixel of rounding error of
`size * (1 + 2p)`), and whose center is within one pixel of the viewport's
center converted to layer coordinates; it also refreshes the cached center
and zoom to the viewport's current values. -/
theorem update_bounds_spec (m : MapState) (s : RendererState) (o : Point)
    (hp : 0 ≤ s.padding) (hx : 0 ≤ m.size.x) (hy : 0 ≤ m.size.y)
    (htr : ∀ q : Point, m.containerPointToLayerPoint q = q.add o) :
    (Renderer.update m s).1.bounds = some (Renderer.updateBounds m s.padding) ∧
    (Renderer.update m s).1.center = m.center ∧
    (Renderer.update m s).1.zoom = m.zoom ∧
    (Renderer.updateBounds m s.padding).min =
      (m.containerPointToLayerPoint (m.size.multiplyBy (-s.padding))).round ∧
    (Renderer.updateBounds m s.padding).max.x -
        (Renderer.updateBounds m s.padding).min.x =
      (jsRound (m.size.x * (1 + 2 * s.padding)) : ℚ) ∧
    (Renderer.updateBounds m s.padding).max.y -
        (Renderer.updateBounds m s.padding).min.y =
      (jsRound (m.size.y * (1 + 2 * s.padding)) : ℚ) ∧
    |((Renderer.updateBounds m s.padding).min.x +
        (Renderer.updateBounds m s.padding).max.x) / 2 -
      (m.containerPointToLayerPoint (m.size.multiplyBy (1/2))).x| ≤ 1 ∧
    |((Renderer.updateBounds m s.padding).min.y +
        (Renderer.updateBounds m s.padding).max.y) / 2 -
      (m.containerPointToLayerPoint (m.size.multiplyBy (1/2))).y| ≤ 1 := by
  have hpx : 0 ≤ m.size.x * (1 + s.padding * 2) :=
    mul_nonneg hx (by linarith)
  have hpy : 0 ≤ m.size.y * (1 + s.padding * 2) :=
    mul_nonneg hy (by linarith)
  have hcx := bounds_component (m.size.x * -s.padding + o.x)
    (m.size.x * (1 + s.padding * 2)) hpx
  have hcy := bounds_component (m.size.y * -s.padding + o.y)
    (m.size.y * (1 + s.padding * 2)) hpy
  have hb : Renderer.updateBounds m s.padding =
      ⟨⟨(jsRound (m.size.x * -s.padding + o.x) : ℚ),
        (jsRound (m.size.y * -s.padding + o.y) : ℚ)⟩,
       ⟨(jsRound (m.size.x * -s.padding + o.x) : ℚ) +
          (jsRound (m.size.x * (1 + s.padding * 2)) : ℚ),
        (jsRound (m.size.y * -s.padding + o.y) : ℚ) +
          (jsRound (m.size.y * (1 + s.padding * 2)) : ℚ)⟩⟩ := by
    simp only [Renderer.updateBounds, htr, Point.multiplyBy, Point.add,
      Point.round, Bounds.ofCorners]
    rw [hcx.1, hcy.1, hcx.2, hcy.2]
  refine ⟨rfl, rfl, rfl, ?_, ?_, ?_, ?_, ?_⟩
  · rw [hb, htr]
    simp only [Point.multiplyBy, Point.add, Point.round]
  · rw [hb]
    have : m.size.x * (1 + s.padding * 2) = m.size.x * (1 + 2 * s.padding) := by
      ring
    simp [this]
  · rw [hb]
    have : m.size.y * (1 + s.padding * 2) = m.size.y * (1 + 2 * s.padding) := by
      ring
    simp [this]
  · rw [hb, htr]
    simp only [Point.multiplyBy, Point.add]
    have hA := abs_jsRound_sub (m.size.x * -s.padding + o.x)
    have hR := abs_jsRound_sub (m.size.x * (1 + s.padding * 2))
    have hkey :
        ((jsRound (m.size.x * -s.padding + o.x) : ℚ) +
          ((jsRound (m.size.x * -s.padding + o.x) : ℚ) +
            (jsRound (m.size.x * (1 + s.padding * 2)) : ℚ))) / 2 -
          (m.size.x * (1/2) + o.x) =
        ((jsRound (m.size.x * -s.padding + o.x) : ℚ) -
            (m.size.x * -s.padding + o.x)) +
          ((jsRound (m.size.x * (1 + s.padding * 2)) : ℚ) -
            m.size.x * (1 + s.padding * 2)) / 2 := by
      ring
    rw [hkey]
    calc |((jsRound (m.size.x * -s.padding + o.x) : ℚ) -
            (m.size.x * -s.padding + o.x)) +
          ((jsRound (m.size.x * (1 + s.padding * 2)) : ℚ) -
            m.size.x * (1 + s.padding * 2)) / 2|
        ≤ |(jsRound (m.size.x * -s.padding + o.x) : ℚ) -
            (m.size.x * -s.padding + o.x)| +
          |((jsRound (m.size.x * (1 + s.padding * 2)) : ℚ) -
            m.size.x * (1 + s.padding * 2)) / 2| := abs_add _ _
      _ = |(jsRound (m.size.x * -s.padding + o.x) : ℚ) -
            (m.size.x * -s.padding + o.x)| +
          |(jsRound (m.size.x * (1 + s.padding * 2)) : ℚ) -
            m.size.x * (1 + s.padding * 2)| / 2 := by
          rw [abs_div]
          norm_num
      _ ≤ 1 := by linarith
  · rw [hb, htr]
    simp only [Point.multiplyBy, Point.add]
    have hA := abs_jsRound_sub (m.size.y * -s.padding + o.y)
    have hR := abs_jsRound_sub (m.size.y * (1 + s.padding * 2))
    have hkey :
        ((jsRound (m.size.y * -s.padding + o.y) : ℚ) +
          ((jsRound (m.size.y * -s.padding + o.y) : ℚ) +
            (jsRound (m.size.y * (1 + s.padding * 2)) : ℚ))) / 2 -
          (m.size.y * (1/2) + o.y) =
        ((jsRound (m.size.y * -s.padding + o.y) : ℚ) -
            (m.size.y * -s.padding + o.y)) +
          ((jsRound (m.size.y * (1 + s.padding * 2)) : ℚ) -
            m.size.y * (1 + s.padding * 2)) / 2 := by
      ring
    rw [hkey]
    calc |((jsRound (m.size.y * -s.padding + o.y) : ℚ) -
            (m.size.y * -s.padding + o.y)) +
          ((jsRound (m.size.y * (1 + s.padding * 2)) : ℚ) -
            m.size.y * (1 + s.padding * 2)) / 2|
        ≤ |(jsRound (m.size.y * -s.padding + o.y) : ℚ) -
            (m.size.y * -s.padding + o.y)| +
          |((jsRound (m.size.y * (1 + s.padding * 2)) : ℚ) -
            m.size.y * (1 + s.padding * 2)) / 2| := abs_add _ _
      _ = |(jsRound (m.size.y * -s.padding + o.y) : ℚ) -
            (m.size.y * -s.padding + o.y)| +
          |(jsRound (m.size.y * (1 + s.padding * 2)) : ℚ) -
            m.size.y * (1 + s.padding * 2)| / 2 := by
          rw [abs_div]
          norm_num
      _ ≤ 1 := by linarith

/-- Witness for C2 at the sample viewport: the hypotheses hold there and the
computed bounds match the spec scenario (800×600, padding 0.1). -/
theorem update_bounds_spec_witness :
    (Renderer.update sampleMap sampleState).1.bounds =
      some (Renderer.updateBounds sampleMap sampleState.padding) ∧
    (Renderer.updateBounds sampleMap sampleState.padding).max.x -
        (Renderer.updateBounds sampleMap sampleState.padding).min.x =
      (jsRound ((800 : ℚ) * (1 + 2 * (1/10))) : ℚ) := by
  have h := update_bounds_spec sampleMap sampleState ⟨0, 0⟩
    (by norm_num [sampleState]) (by norm_num [sampleMap])
    (by norm_num [sampleMap]) (fun q => by simp [sampleMap, Point.add])
  refine ⟨h.1, ?_⟩
  have h5 := h.2.2.2.2.1
  simpa [sampleMap, sampleState] using h5

/-- Eff.projectCall is injective. -/
theorem projectCall_injective : Function.Injective Eff.projectCall :=
  fun _ _ h => by simpa using h

/-- Eff.resetCall is injective. -/
theorem resetCall_injective : Function.Injective Eff.resetCall :=
  fun _ _ h => by simpa using h

/-- Eff.updateCall is injective. -/
theorem updateCall_injective : Function.Injective Eff.updateCall :=
  fun _ _ h => by simpa using h

/-- Dispatch over a duplicate-free registry delivers each callback exactly
once per registered id. -/
theorem count_map_call {f : ℕ → Eff} (hf : Function.Injective f)
    (l : List ℕ) (i : ℕ) (hnd : l.Nodup) (hi : i ∈ l) :
    (l.map f).count (f i) = 1 := by
  rw [List.count_map_of_injective _ _ hf]
  exact List.count_eq_one_of_mem hnd hi

/-- C3 counterexample: with a registered member shape (id 7), handling
`moveend` runs `_update` only — the trace holds no `_project` call and no
transform application, so `moveend` does not perform the claimed full reset. -/
theorem moveend_not_full_reset_cex :
    sampleState.layers = [7] ∧
    Renderer.handleEvent sampleMap true sampleState MapEvent.moveend =
      some (Renderer.update sampleMap sampleState) ∧
    (Renderer.update sampleMap sampleState).2.countP Eff.isProjectCall = 0 ∧
    (Renderer.update sampleMap sampleState).2.countP Eff.isSetTransform = 0 :=
  ⟨rfl, rfl, rfl, rfl⟩

/-- C3 (amended): handling a `moveend` notification runs `_update` only — it
recomputes the bounds and refreshes the cached center and zoom to the
viewport's current values, invokes no member-shape callback, applies no
transform, and leaves the registry unchanged (shape `_update()` arrives
separately via the `update` event that subclasses fire). -/
theorem moveend_bounds_only (m : MapState) (za : Bool) (s : RendererState) :
    Renderer.handleEvent m za s MapEvent.moveend =
      some (Renderer.update m s) ∧
    (Renderer.update m s).2 =
      [Eff.setBounds (Renderer.updateBounds m s.padding)] ∧
    (Renderer.update m s).2.countP Eff.isShapeCall = 0 ∧
    (Renderer.update m s).2.countP Eff.isSetTransform = 0 ∧
    (Renderer.update m s).1.center = m.center ∧
    (Renderer.update m s).1.zoom = m.zoom ∧
    (Renderer.update m s).1.bounds = some (Renderer.updateBounds m s.padding) ∧
    (Renderer.update m s).1.layers = s.layers :=
  ⟨rfl, rfl, rfl, rfl, rfl, rfl, rfl, rfl⟩

/-- C4: handling `zoomend` delivers exactly one `_project()` to every
registered member shape (registry ids are duplicate-free) and nothing else:
no bounds recomputation, no transform application, no `_update()` delivery,
and the renderer state is unchanged. -/
theorem zoomend_projects_each_once (m : MapState) (za : Bool)
    (s : RendererState) (hnd : s.layers.Nodup) :
    Renderer.handleEvent m za s MapEvent.zoomend =
      some (s, s.layers.map Eff.projectCall) ∧
    (∀ i ∈ s.layers,
      (s.layers.map Eff.projectCall).count (Eff.projectCall i) = 1) ∧
    (s.layers.map Eff.projectCall).countP Eff.isSetBounds = 0 ∧
    (s.layers.map Eff.projectCall).countP Eff.isSetTransform = 0 ∧
    (s.layers.map Eff.projectCall).countP Eff.isUpdateCall = 0 ∧
    (Renderer.onZoomEnd s).1 = s := by
  refine ⟨rfl, ?_, ?_, ?_, ?_, rfl⟩
  · intro i hi
    exact count_map_call projectCall_injective s.layers i hnd hi
  · rw [List.countP_map]
    simp [Function.comp, Eff.isSetBounds]
  · rw [List.countP_map]
    simp [Function.comp, Eff.isSetTransform]
  · rw [List.countP_map]
    simp [Function.comp, Eff.isUpdateCall]

/-- Witness for C4 at the sample state: one shape with id 7 is registered and
handling `zoomend` yields exactly its `_project` call. -/
theorem zoomend_projects_each_once_witness :
    Renderer.handleEvent sampleMap true sampleState MapEvent.zoomend =
      some (sampleState, [Eff.projectCall 7]) := by
  have h := zoomend_projects_each_once sampleMap true sampleState (by decide)
  exact h.1

/-- C5 counterexample: the sample viewport satisfies the zoom-scale law
`getZoomScale(z, z) = 1` (its scale law is the standard doubling
`2 ^ (zoomdifference)`), yet computing the transform at the cached
center/zoom yields unit scale with translation offset `(-80, -60)` — not the
claimed zero offset. -/
theorem transform_identity_cex :
    sampleMap.getZoomScale sampleState.zoom sampleState.zoom = 1 ∧
    (Renderer.computeTransform sampleMap sampleState sampleState.center
        sampleState.zoom).2 = 1 ∧
    (Renderer.computeTransform sampleMap sampleState sampleState.center
        sampleState.zoom).1 = (⟨-80, -60⟩ : Point) ∧
    (Renderer.computeTransform sampleMap sampleState sampleState.center
        sampleState.zoom).1 ≠ (⟨0, 0⟩ : Point) := by
  refine ⟨?_, ?_, ?_, ?_⟩
  · norm_num [sampleMap, sampleState]
  · norm_num [Renderer.computeTransform, sampleMap, sampleState]
  · norm_num [Renderer.computeTransform, sampleMap, sampleState,
      Point.multiplyBy, Point.add, Point.subtract, Point.round, jsRound,
      Point.mk.injEq]
  · norm_num [Renderer.computeTransform, sampleMap, sampleState,
      Point.multiplyBy, Point.add, Point.subtract, Point.round, jsRound,
      Point.mk.injEq]

/-- C5 (amended): with target center/zoom equal to the cached snapshot and a
viewport whose zoom-scale law gives `getZoomScale(z, z) = 1`, the computed
transform has unit scale and translation offset
`project(cachedCenter, zoom) - newPixelOrigin(cachedCenter, zoom)
 - size * (0.5 + padding)`; the offset is zero precisely when the viewport's
pixel origin equals the projected center minus the padded half extent — not
for every contract-satisfying viewport. -/
theorem transform_identity (m : MapState) (s : RendererState)
    (hscale : m.getZoomScale s.zoom s.zoom = 1) :
    Renderer.computeTransform m s s.center s.zoom =
      (((m.project s.center s.zoom).subtract
          (m.getNewPixelOrigin s.center s.zoom)).subtract
        (m.size.multiplyBy (1/2 + s.padding)), 1) ∧
    ((Renderer.computeTransform m s s.center s.zoom).1 = (⟨0, 0⟩ : Point) ↔
      m.getNewPixelOrigin s.center s.zoom =
        (m.project s.center s.zoom).subtract
          (m.size.multiplyBy (1/2 + s.padding))) := by
  have hx : (Renderer.computeTransform m s s.center s.zoom).1.x =
      (m.project s.center s.zoom).x -
        (m.getNewPixelOrigin s.center s.zoom).x -
        m.size.x * (1/2 + s.padding) := by
    simp only [Renderer.computeTransform, hscale, Point.multiplyBy, Point.add,
      Point.subtract]
    ring
  have hy : (Renderer.computeTransform m s s.center s.zoom).1.y =
      (m.project s.center s.zoom).y -
        (m.getNewPixelOrigin s.center s.zoom).y -
        m.size.y * (1/2 + s.padding) := by
    simp only [Renderer.computeTransform, hscale, Point.multiplyBy, Point.add,
      Point.subtract]
    ring
  have hsc : (Renderer.computeTransform m s s.center s.zoom).2 = 1 := hscale
  constructor
  · rw [Prod.ext_iff]
    refine ⟨?_, hsc⟩
    rw [Point.eq_iff]
    constructor
    · rw [hx]
      simp only [Point.subtract, Point.multiplyBy]
    · rw [hy]
      simp only [Point.subtract, Point.multiplyBy]
  · rw [Point.eq_iff, Point.eq_iff]
    simp only [hx, hy, Point.subtract, Point.multiplyBy]
    constructor
    · rintro ⟨h1, h2⟩
      exact ⟨by linarith, by linarith⟩
    · rintro ⟨h1, h2⟩
      exact ⟨by linarith, by linarith⟩

/-- Witness for C5 (amended) at the sample viewport, where the zoom-scale law
holds at equal zooms. -/
theorem transform_identity_witness :
    Renderer.computeTransform sampleMap sampleState sampleState.center
        sampleState.zoom =
      (((sampleMap.project sampleState.center sampleState.zoom).subtract
          (sampleMap.getNewPixelOrigin sampleState.center
            sampleState.zoom)).subtract
        (sampleMap.size.multiplyBy (1/2 + sampleState.padding)), 1) := by
  have h := transform_identity sampleMap sampleState
    (by norm_num [sampleMap, sampleState])
  exact h.1

/-- C6: within the handling of a single `viewreset` notification the trace
is: the bounds recomputation, then the whole-surface transform application,
then one `_reset()` per registered shape — so both the new bounds and the
transform are in place before any member-shape callback runs, and every
registered shape receives exactly one `_reset()` call. -/
theorem viewreset_dispatch_order (m : MapState) (za : Bool)
    (s : RendererState) (hnd : s.layers.Nodup) :
    Renderer.handleEvent m za s MapEvent.viewreset =
      some (Renderer.reset m s) ∧
    (Renderer.reset m s).2 =
      Eff.setBounds (Renderer.updateBounds m s.padding) ::
        Eff.setTransform
          (Renderer.computeTransform m (Renderer.update m s).1 m.center
            m.zoom).1
          (Renderer.computeTransform m (Renderer.update m s).1 m.center
            m.zoom).2 ::
        s.layers.map Eff.resetCall ∧
    ((Renderer.reset m s).2.take 2).countP Eff.isShapeCall = 0 ∧
    (∀ i ∈ s.layers,
      (Renderer.reset m s).2.count (Eff.resetCall i) = 1) := by
  refine ⟨rfl, rfl, rfl, ?_⟩
  intro i hi
  have h1 : (s.layers.map Eff.resetCall).count (Eff.resetCall i) = 1 :=
    count_map_call resetCall_injective s.layers i hnd hi
  show (Eff.setBounds _ :: Eff.setTransform _ _ ::
      s.layers.map Eff.resetCall).count (Eff.resetCall i) = 1
  rw [List.count_cons, List.count_cons]
  simpa using h1

/-- Witness for C6 at the sample state: the registered shape with id 7
receives exactly one `_reset()` call. -/
theorem viewreset_dispatch_order_witness :
    (Renderer.reset sampleMap sampleState).2.count (Eff.resetCall 7) = 1 := by
  have h := viewreset_dispatch_order sampleMap true sampleState (by decide)
  exact h.2.2.2 7 (by decide)

/-- C7 counterexample: on attach (`onAdd`) at the sample viewport the trace
is DOM setup, bounds recomputation, then the `update` subscription — it holds
no transform application at all, so the claimed full transform application at
identity does not happen during attach. -/
theorem onAdd_no_transform_cex :
    (Renderer.onAdd sampleMap sampleState).2 =
      [Eff.domSetup,
        Eff.setBounds (Renderer.updateBounds sampleMap sampleState.padding),
        Eff.subscribeUpdate] ∧
    (Renderer.onAdd sampleMap sampleState).2.countP Eff.isSetTransform = 0 :=
  ⟨rfl, rfl⟩

/-- C7 (amended): on attach to a live viewport the core performs the bounds
recomputation (caching the viewport's current center and zoom) and then
subscribes to `update` notifications, in that order; it applies no transform
and invokes no member-shape callback during attach. -/
theorem onAdd_bounds_then_subscribe (m : MapState) (s : RendererState) :
    Renderer.onAdd m s =
      ((Renderer.update m s).1,
        [Eff.domSetup, Eff.setBounds (Renderer.updateBounds m s.padding),
          Eff.subscribeUpdate]) ∧
    (Renderer.onAdd m s).2.countP Eff.isSetTransform = 0 ∧
    (Renderer.onAdd m s).2.countP Eff.isShapeCall = 0 ∧
    (Renderer.onAdd m s).1.center = m.center ∧
    (Renderer.onAdd m s).1.zoom = m.zoom :=
  ⟨rfl, rfl, rfl, rfl, rfl⟩

/-- C8: handling a zoom-animation frame (`zoomanim`, with the map
zoom-animated) only computes and applies the surface transform for the
frame's interpolated center and zoom: the resulting state is the input state
(cached bounds, center, zoom and the member-shape registry are untouched) and
the trace is the single transform application — no shape callback and no
bounds recomputation. -/
theorem animzoom_transform_only (m : MapState) (s : RendererState)
    (c : LatLng) (z : ℚ) :
    Renderer.handleEvent m true s (MapEvent.zoomanim c z) =
      some (s, [Eff.setTransform (Renderer.computeTransform m s c z).1
        (Renderer.computeTransform m s c z).2]) ∧
    (Renderer.onAnimZoom m s c z).1 = s ∧
    (Renderer.onAnimZoom m s c z).2.countP Eff.isShapeCall = 0 ∧
    (Renderer.onAnimZoom m s c z).2.countP Eff.isSetBounds = 0 :=
  ⟨rfl, rfl, rfl, rfl⟩

/-- C9: the padding option defaults to 0.1; a supplied padding is accepted
exactly when it is a non-negative number, and the accepted value is the
padding stored in the state and used by the bounds and transform
computations. The option-merging step is spec-modelled (see
`Renderer.setOptionsPadding`). -/
theorem padding_option_contract (m : MapState) (L : List ℕ) :
    (∀ p : ℚ, (Renderer.initState (some p) (some L)).isSome = true ↔ 0 ≤ p) ∧
    (∃ s0, Renderer.initState none (some L) = some s0 ∧ s0.padding = 1/10) ∧
    (∀ p s0, Renderer.initState (some p) (some L) = some s0 →
      s0.padding = p ∧
      (Renderer.update m s0).1.bounds = some (Renderer.updateBounds m p) ∧
      (Renderer.computeTransform m s0 m.center m.zoom).1 =
        (((m.size.multiplyBy (1/2 + p)).multiplyBy
            (-(m.getZoomScale m.zoom s0.zoom))).add
          (m.project s0.center m.zoom)).subtract
          (m.getNewPixelOrigin m.center m.zoom)) := by
  refine ⟨?_, ⟨_, rfl, rfl⟩, ?_⟩
  · intro p
    by_cases hp : 0 ≤ p <;>
      simp [Renderer.initState, Renderer.setOptionsPadding, hp]
  · intro p s0 h
    by_cases hp : 0 ≤ p
    · simp only [Renderer.initState, Renderer.setOptionsPadding, if_pos hp,
        Option.map_some', Option.some.injEq] at h
      subst h
      exact ⟨rfl, rfl, rfl⟩
    · exfalso
      simp [Renderer.initState, Renderer.setOptionsPadding, hp] at h

/-- Witness for C9: padding 1/5 is accepted, padding -1 is rejected. -/
theorem padding_option_contract_witness :
    (Renderer.initState (some (1/5 : ℚ)) (some [7])).isSome = true ∧
    (Renderer.initState (some (-1 : ℚ)) (some [7])).isSome = false := by
  have h := padding_option_contract sampleMap [7]
  constructor
  · exact (h.1 (1/5)).mpr (by norm_num)
  · have h2 := h.1 (-1)
    have h3 : ¬((Renderer.initState (some (-1 : ℚ)) (some [7])).isSome
        = true) := by
      rw [h2]
      norm_num
    simpa using h3

/-- C10: no core operation adds or removes registry entries — `initialize`
preserves any pre-existing registry, and each dispatch operation (`_reset`,
`_onZoomEnd`, `_updatePaths`) leaves the registry unchanged while invoking
its callback exactly once per registered entry (ids are duplicate-free). -/
theorem registry_preserved (m : MapState) (s : RendererState) (L : List ℕ)
    (hnd : s.layers.Nodup) :
    (∀ o s0, Renderer.initState o (some L) = some s0 → s0.layers = L) ∧
    (Renderer.reset m s).1.layers = s.layers ∧
    (Renderer.onZoomEnd s).1.layers = s.layers ∧
    (Renderer.updatePaths s).1.layers = s.layers ∧
    (Renderer.onZoomEnd s).2 = s.layers.map Eff.projectCall ∧
    (Renderer.updatePaths s).2 = s.layers.map Eff.updateCall ∧
    (∀ i ∈ s.layers,
      (Renderer.reset m s).2.count (Eff.resetCall i) = 1 ∧
      (Renderer.onZoomEnd s).2.count (Eff.projectCall i) = 1 ∧
      (Renderer.updatePaths s).2.count (Eff.updateCall i) = 1) := by
  refine ⟨?_, rfl, rfl, rfl, rfl, rfl, ?_⟩
  · intro o s0 h
    match o with
    | none =>
      simp only [Renderer.initState, Renderer.setOptionsPadding,
        Option.map_some', Option.some.injEq] at h
      rw [← h]
      rfl
    | some p =>
      by_cases hp : 0 ≤ p
      · simp only [Renderer.initState, Renderer.setOptionsPadding, if_pos hp,
          Option.map_some', Option.some.injEq] at h
        rw [← h]
        rfl
      · exfalso
        simp [Renderer.initState, Renderer.setOptionsPadding, hp] at h
  · intro i hi
    refine ⟨?_, ?_, ?_⟩
    · have h1 : (s.layers.map Eff.resetCall).count (Eff.resetCall i) = 1 :=
        count_map_call resetCall_injective s.layers i hnd hi
      show (Eff.setBounds _ :: Eff.setTransform _ _ ::
          s.layers.map Eff.resetCall).count (Eff.resetCall i) = 1
      rw [List.count_cons, List.count_cons]
      simpa using h1
    · exact count_map_call projectCall_injective s.layers i hnd hi
    · exact count_map_call updateCall_injective s.layers i hnd hi

/-- Witness for C10 at the sample state: the dispatch operations keep the
registry [7] and deliver one callback to shape 7. -/
theorem registry_preserved_witness :
    (Renderer.reset sampleMap sampleState).1.layers = sampleState.layers ∧
    (Renderer.onZoomEnd sampleState).2.count (Eff.projectCall 7) = 1 := by
  have h := registry_preserved sampleMap sampleState [7] (by decide)
  exact ⟨h.2.1, (h.2.2.2.2.2.2 7 (by decide)).2.1⟩
